import Mathlib

/-!
Verification of the alexandria-cli outpost supervisor and repository gateway.

The definitions below are a shallow embedding of the TypeScript source:
* `src/commands/outpost.ts` — the `serve` / `status` / `kill` subcommands and
  their shared state store (`outpost.pid`, `outpost.config.json`);
* the express route module (`createRoutes`) — repository registration and raw
  file streaming with the path-containment check;
* `LocalAPIServer` — the local gateway's start/stop lifecycle.

File contents are modelled explicitly as absent / unparsable / parsed values;
process liveness and spawn outcomes are supplied by an environment record, so
each command becomes a pure function from (environment, file state) to
(observable outcome, file state).
-/

namespace AlexandriaCLI

/-- Content of one on-disk artifact: the file may be missing, present but
failing to parse (`parseInt` yielding NaN, `JSON.parse` throwing), or present
with a parsed value. -/
inductive FileContent (α : Type) where
  | absent : FileContent α
  | invalid : FileContent α
  | valid : α → FileContent α
deriving DecidableEq, Repr

/-- `OutpostConfig` from outpost.ts: the JSON descriptor `{port, apiUrl, startedAt}`. -/
structure OutpostConfig where
  port : Nat
  apiUrl : String
  startedAt : String
deriving DecidableEq, Repr

/-- The two descriptor artifacts under `~/.alexandria`: `outpost.pid` (a
process id) and `outpost.config.json` (an `OutpostConfig`). -/
structure OutpostFiles where
  pidFile : FileContent Nat
  configFile : FileContent OutpostConfig
deriving DecidableEq, Repr

/-- The state with neither artifact on disk. -/
def OutpostFiles.empty : OutpostFiles := ⟨.absent, .absent⟩

/-- `cleanupServerInfo` from outpost.ts: unlink both artifacts if present. -/
def cleanupServerInfo (_fs : OutpostFiles) : OutpostFiles := .empty

/-- `saveServerInfo` from outpost.ts: write the pid and the JSON config. -/
def saveServerInfo (pid : Nat) (config : OutpostConfig) (_fs : OutpostFiles) : OutpostFiles :=
  ⟨.valid pid, .valid config⟩

/-- Result shape of `isOutpostRunning`: `{running: false}` or
`{running: true, pid, config?}` — the config field stays undefined when the
config file is missing. -/
inductive ProbeResult where
  | stopped : ProbeResult
  | running : Nat → Option OutpostConfig → ProbeResult
deriving DecidableEq, Repr

/-- `isOutpostRunning` from outpost.ts. If the pid file is missing, report not
running. Otherwise parse the pid and send signal 0 (`alive`); on any exception
(unparsable pid, dead process, unparsable config JSON) the catch block unlinks
both artifacts and reports not running. On success the config is attached only
if its file exists. -/
def isOutpostRunning (alive : Nat → Bool) (fs : OutpostFiles) : ProbeResult × OutpostFiles :=
  match fs.pidFile with
  | .absent => (.stopped, fs)
  | .invalid => (.stopped, cleanupServerInfo fs)
  | .valid pid =>
    if alive pid then
      match fs.configFile with
      | .absent => (.running pid none, fs)
      | .invalid => (.stopped, cleanupServerInfo fs)
      | .valid c => (.running pid (some c), fs)
    else
      (.stopped, cleanupServerInfo fs)

/-! ## The `kill` subcommand -/

/-- Events the `kill` action performs against the operating system, in
order: `process.kill(pid, SIGTERM)`, the fixed `setTimeout` delay, the
signal-0 liveness re-probe, and `process.kill(pid, SIGKILL)`. -/
inductive KillEvent where
  | sigterm : Nat → KillEvent
  | waitMs : Nat → KillEvent
  | livenessProbe : Nat → KillEvent
  | sigkill : Nat → KillEvent
deriving DecidableEq, Repr

/-- Observable outcome of one `kill` invocation: the process exit code, whether
the "no server running" message was printed, and the OS events issued. -/
structure KillOutcome where
  exitCode : Int
  reportedNoServer : Bool
  events : List KillEvent
deriving DecidableEq, Repr

/-- Environment for `kill`: liveness at probe time, whether the SIGTERM send
succeeds (the process could die between the probe and the signal, making
`process.kill` throw), and liveness after the one-second wait. -/
structure KillEnv where
  alive : Nat → Bool
  sigtermOk : Nat → Bool
  aliveAfterWait : Nat → Bool

/-- The `kill` action from `createKillCommand`. If the probe reports not
running, print the notice and return (exit 0, nothing touched). Otherwise send
SIGTERM; in the `setTimeout` callback, re-probe with signal 0, SIGKILL only if
still alive, then `cleanupServerInfo`. If the SIGTERM send throws, the catch
block cleans up the files anyway. The action never calls `process.exit`, so the
exit code is always 0. -/
def killAction (env : KillEnv) (fs : OutpostFiles) : KillOutcome × OutpostFiles :=
  match isOutpostRunning env.alive fs with
  | (.stopped, fs') => (⟨0, true, []⟩, fs')
  | (.running pid _, fs') =>
    if env.sigtermOk pid then
      if env.aliveAfterWait pid then
        (⟨0, false, [.sigterm pid, .waitMs 1000, .livenessProbe pid, .sigkill pid]⟩,
         cleanupServerInfo fs')
      else
        (⟨0, false, [.sigterm pid, .waitMs 1000, .livenessProbe pid]⟩,
         cleanupServerInfo fs')
    else
      (⟨0, false, [.sigterm pid]⟩, cleanupServerInfo fs')

/-! ## The `serve` subcommand -/

/-- Options of `createServeCommand` after commander parsing: port, upstream API
URL, detached flag, open-browser flag, local-gateway flag, gateway port. -/
structure ServeOptions where
  port : Nat
  apiUrl : String
  detached : Bool
  open' : Bool
  localApi : Bool
  apiPort : Nat
deriving DecidableEq, Repr

/-- Environment for `serve`: probe liveness, whether `LocalAPIServer.start`
succeeds, whether `getOutpostExecutablePath` finds the executable, the pid the
spawn assigns to the child (`none` when `child.pid` is unset), the child's exit
code in foreground mode (`none` for a signal-terminated child, whose `code` is
null), and the current time used for `startedAt`. -/
structure SpawnEnv where
  alive : Nat → Bool
  gatewayStartOk : Bool
  executableFound : Bool
  spawnPid : Option Nat
  childExitCode : Option Int
  now : String

/-- Observable outcome of one `serve` invocation: the exit code, whether a
child process was spawned, whether `saveServerInfo` ran, and the descriptor
printed by the "already running" branch (pid plus optional config). -/
structure ServeOutcome where
  exitCode : Int
  spawned : Bool
  savedDescriptor : Bool
  displayedExisting : Option (Nat × Option OutpostConfig)
deriving DecidableEq, Repr

/-- The launch part of the `serve` action: everything after the
already-running check. Start the local gateway when `--local` was given
(failure exits 1 before any spawn); resolve the executable (failure is thrown
and caught, exiting 1); then either spawn detached — persisting the descriptor
when the child has a pid (`if (child.pid)`, falsy for 0) — or spawn in the
foreground, where the exit handler runs `process.exit(code || 0)` so a null
code becomes 0 and a numeric code is propagated unchanged. -/
def launchOutpost (env : SpawnEnv) (opts : ServeOptions) (fs : OutpostFiles) :
    ServeOutcome × OutpostFiles :=
  if opts.localApi ∧ ¬ env.gatewayStartOk then
    (⟨1, false, false, none⟩, fs)
  else if ¬ env.executableFound then
    (⟨1, false, false, none⟩, fs)
  else
    let apiUrl := if opts.localApi then "http://localhost:" ++ toString opts.apiPort
                  else opts.apiUrl
    if opts.detached then
      match env.spawnPid with
      | some pid =>
        if pid ≠ 0 then
          (⟨0, true, true, none⟩,
           saveServerInfo pid ⟨opts.port, apiUrl, env.now⟩ fs)
        else
          (⟨1, true, false, none⟩, fs)
      | none => (⟨1, true, false, none⟩, fs)
    else
      (⟨(env.childExitCode).getD 0, true, false, none⟩, fs)

/-- The full `serve` action: probe first; if running, print the existing pid
and config and `process.exit(1)`; otherwise launch. -/
def serveAction (env : SpawnEnv) (opts : ServeOptions) (fs : OutpostFiles) :
    ServeOutcome × OutpostFiles :=
  match isOutpostRunning env.alive fs with
  | (.running pid cfg, fs') => (⟨1, false, false, some (pid, cfg)⟩, fs')
  | (.stopped, fs') => launchOutpost env opts fs'

/-! ## POSIX path model for `path.join` -/

/-- Split a character list on `/`. -/
def splitSegsAux : List Char → List Char → List (List Char)
  | [], acc => [acc.reverse]
  | c :: cs, acc =>
    if c = '/' then acc.reverse :: splitSegsAux cs []
    else splitSegsAux cs (c :: acc)

/-- Split a path on `/`, dropping empty segments. -/
def splitPath (s : String) : List String :=
  ((splitSegsAux s.toList []).map (fun cs => String.mk cs)).filter (fun seg => seg ≠ "")

/-- Character-level model of JavaScript / Node `String.prototype.startsWith`. -/
def strStartsWith (s pre : String) : Bool :=
  pre.toList.isPrefixOf s.toList

/-- Resolve `.` and `..` segments of an absolute path, as Node's path
normalization does: `.` is dropped, `..` removes the previous segment and is
dropped at the root. -/
def normAbs (segs : List String) : List String :=
  segs.foldl
    (fun acc seg =>
      if seg = "." then acc
      else if seg = ".." then acc.dropLast
      else acc ++ [seg])
    []

/-- Render an absolute path from its segments. -/
def renderAbs : List String → String
  | [] => "/"
  | seg :: rest => (seg :: rest).foldl (fun acc s => acc ++ "/" ++ s) ""

/-- Model of Node `path.join(base, rel)` for an absolute POSIX base path: the
segments of both arguments are concatenated and normalized, and the result is
rendered with a single leading slash. -/
def pathJoin (base rel : String) : String :=
  renderAbs (normAbs (splitPath base ++ splitPath rel))

/-- A requested relative path escapes the repository root when the normalized
segment list of the root is not a segment-wise prefix of the normalized joined
path — i.e. the resolved absolute path is no longer contained in the root
directory. -/
def escapesRoot (root rel : String) : Bool :=
  ¬ (normAbs (splitPath root)).isPrefixOf (normAbs (splitPath root ++ splitPath rel))

/-! ## The raw-file route -/

/-- The repository object the raw route receives from
`outpostManager.getRepository`, cast to `AlexandriaRepository & {path?: string}`:
only its optional `path` field is consulted. -/
structure RawRepo where
  path : Option String
deriving DecidableEq, Repr

/-- JavaScript falsiness of an optional string: `undefined`, `null`, and the
empty string are falsy. -/
def jsFalsyStr : Option String → Bool
  | none => true
  | some s => s = ""

/-- Responses of the `/raw/:repo/*` handler: 404 `REPO_NOT_FOUND`,
500 `NO_PATH`, 403 `FORBIDDEN`, 404 `FILE_NOT_FOUND`, or a 200 stream of the
resolved full path. -/
inductive RawResponse where
  | repoNotFound : RawResponse
  | noPath : RawResponse
  | forbidden : RawResponse
  | fileNotFound : String → RawResponse
  | streamOk : String → RawResponse
deriving DecidableEq, Repr

/-- The `/raw/:repo/*` handler from `createRoutes`. `lookup` is the
repository registry (`getRepository`), `fileExists` is `existsSync`. The full
path is `join(repoPath, filePath)` and the containment check is
`fullPath.startsWith(repoPath)` — a string prefix comparison on the joined
path. -/
def streamRawFile (lookup : String → Option RawRepo) (fileExists : String → Bool)
    (repo filePath : String) : RawResponse :=
  match lookup repo with
  | none => .repoNotFound
  | some r =>
    if jsFalsyStr r.path then .noPath
    else
      let repoPath := r.path.getD ""
      let fullPath := pathJoin repoPath filePath
      if ¬ strStartsWith fullPath repoPath then .forbidden
      else if ¬ fileExists fullPath then .fileNotFound filePath
      else .streamOk fullPath

/-! ## Repository registration -/

/-- One entry of the project registry, as the registration path uses it:
a unique name and a filesystem path. -/
structure AlexandriaEntry where
  name : String
  path : String
deriving DecidableEq, Repr

/-- The registry persisted by the external collaborator, in registration
order. -/
abbrev Registry := List AlexandriaEntry

/-- Modelled from the spec: `ProjectRegistryStore.registerProject` lives in the
external `a24z-memory` package, whose code is not part of this repository. Per
the spec, registration "fails if the name already exists" with an error whose
message carries "already exists" (surfaced by the route as the distinct 409
condition); otherwise the entry is added. -/
def registerProject (reg : Registry) (name path : String) : Except String Registry :=
  if reg.any (fun e => e.name = name) then
    .error ("Repository " ++ name ++ " already exists")
  else
    .ok (reg ++ [⟨name, path⟩])

/-- `ProjectRegistryStore.getProject`: look an entry up by exact name. -/
def getProject (reg : Registry) (name : String) : Option AlexandriaEntry :=
  reg.find? (fun e => e.name = name)

/-- `AlexandriaOutpostManager.registerRepository`: delegate to
`registerProject`, then re-read the entry; a missing re-read is the generic
"Failed to register repository" error. Returns the registered name together
with the updated registry. -/
def registerRepository (reg : Registry) (name path : String) :
    Except String (String × Registry) :=
  match registerProject reg name path with
  | .error e => .error e
  | .ok reg' =>
    match getProject reg' name with
    | none => .error ("Failed to register repository " ++ name)
    | some entry => .ok (entry.name, reg')

/-- Whether `pat` occurs as a contiguous run of `l`. -/
def listIsInfixOf (pat : List Char) : List Char → Bool
  | [] => pat.isEmpty
  | c :: cs => pat.isPrefixOf (c :: cs) || listIsInfixOf pat cs

/-- Character-level model of `errorMessage.includes('already exists')`: the
pattern occurs as a contiguous run of the message. -/
def includesSub (msg pat : String) : Bool :=
  listIsInfixOf pat.toList msg.toList

/-- Responses of `POST /repos`: success, 400 `INVALID_REQUEST`,
409 `ALREADY_EXISTS`, or 400 `REGISTRATION_FAILED`. -/
inductive PostReposResponse where
  | ok : String → PostReposResponse
  | invalidRequest : PostReposResponse
  | alreadyExists : String → PostReposResponse
  | registrationFailed : String → PostReposResponse
deriving DecidableEq, Repr

/-- The `POST /repos` handler from `createRoutes`. `if (!name || !path)` —
absent and empty-string fields are both falsy — yields 400 `INVALID_REQUEST`.
Otherwise `registerRepository` runs; a thrown error whose message includes
"already exists" becomes 409 `ALREADY_EXISTS`, any other error becomes 400
`REGISTRATION_FAILED`, and the registry is left as it was. -/
def postRepos (reg : Registry) (name path : Option String) :
    PostReposResponse × Registry :=
  if jsFalsyStr name ∨ jsFalsyStr path then (.invalidRequest, reg)
  else
    match registerRepository reg (name.getD "") (path.getD "") with
    | .ok (repoName, reg') => (.ok repoName, reg')
    | .error msg =>
      if includesSub msg "already exists" then (.alreadyExists msg, reg)
      else (.registrationFailed msg, reg)

/-! ## LocalAPIServer lifecycle -/

/-- The gateway's lifecycle state, tracking the `this.server` field:
`notStarted` — `server` undefined (listen never called); `listening` —
`server` set and open; `closed` — `server` still set but the listener has
completed a close. `stop()` never resets the field. -/
inductive GatewayState where
  | notStarted : GatewayState
  | listening : GatewayState
  | closed : GatewayState
deriving DecidableEq, Repr

/-- Outcome of the promise `LocalAPIServer.stop` returns: resolved, or
rejected with an error. -/
inductive StopResult where
  | resolved : StopResult
  | rejected : String → StopResult
deriving DecidableEq, Repr

/-- `LocalAPIServer.start`: `this.server = this.app.listen(...)`. -/
def LocalAPIServer.start : GatewayState → GatewayState
  | _ => .listening

/-- `LocalAPIServer.stop`. With `this.server` undefined the promise resolves
immediately. Otherwise `server.close(cb)` runs: Node's `net.Server.close`
invokes the callback with an `ERR_SERVER_NOT_RUNNING` error when the server was
not open, and `stop` rejects on a callback error; on an open server the close
succeeds and the promise resolves. -/
def LocalAPIServer.stop : GatewayState → StopResult × GatewayState
  | .notStarted => (.resolved, .notStarted)
  | .listening => (.resolved, .closed)
  | .closed => (.rejected "ERR_SERVER_NOT_RUNNING", .closed)

/-! ## Helper lemmas -/

/-- When the probe reports running, it leaves the files untouched. -/
theorem isOutpostRunning_running_snd (alive : Nat → Bool) (fs : OutpostFiles)
    (pid : Nat) (cfg : Option OutpostConfig)
    (h : (isOutpostRunning alive fs).1 = .running pid cfg) :
    (isOutpostRunning alive fs).2 = fs := by
  rcases fs with ⟨pf, cf⟩
  cases pf with
  | absent => rfl
  | invalid => simp [isOutpostRunning] at h
  | valid p =>
    by_cases hl : alive p
    · cases cf <;> simp [isOutpostRunning, hl] at h ⊢
    · simp [isOutpostRunning, hl] at h

/-! ## C2 — stale descriptor self-heals across two probes -/

/-- C2: when both descriptor artifacts are on disk but the recorded process is
dead, `isOutpostRunning` reports stopped and deletes both files, and a second
call also reports stopped with the files still absent. -/
theorem probe_stale_self_heals (alive : Nat → Bool) (fs : OutpostFiles)
    (pid : Nat) (hpid : fs.pidFile = .valid pid) (hcfg : fs.configFile ≠ .absent)
    (hdead : alive pid = false) :
    isOutpostRunning alive fs = (.stopped, .empty) ∧
    isOutpostRunning alive (isOutpostRunning alive fs).2 = (.stopped, .empty) := by
  rcases fs with ⟨pf, cf⟩
  cases hpid
  constructor
  · simp [isOutpostRunning, hdead, cleanupServerInfo]
  · simp [isOutpostRunning, hdead, cleanupServerInfo, OutpostFiles.empty]

/-- Witness for C2 at a concrete stale state. -/
theorem probe_stale_self_heals_witness :
    isOutpostRunning (fun _ => false)
        ⟨.valid 42, .valid ⟨3003, "https://git-gallery.com", "t0"⟩⟩ = (.stopped, .empty) ∧
    isOutpostRunning (fun _ => false)
        (isOutpostRunning (fun _ => false)
          ⟨.valid 42, .valid ⟨3003, "https://git-gallery.com", "t0"⟩⟩).2 = (.stopped, .empty) :=
  probe_stale_self_heals (fun _ => false)
    ⟨.valid 42, .valid ⟨3003, "https://git-gallery.com", "t0"⟩⟩ 42 rfl (by decide) rfl

/-! ## C6 — what the probe requires before reporting a descriptor -/

/-- C6 counterexample: a state with a pid file for a live process and no config
file at all is reported as running (with `config` undefined), contradicting
"returns the descriptor only when both artifacts exist and parse correctly". -/
theorem probe_reports_running_without_config :
    isOutpostRunning (fun p => p == 42) ⟨.valid 42, .absent⟩
      = (.running 42 none, ⟨.valid 42, .absent⟩) := by decide

/-- C6 amended: the probe reports a present descriptor exactly when the pid
file parses, the recorded process is alive, and the config file is either
absent (config reported as none) or parses (config attached); a missing config
file does not make the descriptor absent. -/
theorem probe_running_characterization (alive : Nat → Bool) (fs : OutpostFiles)
    (pid : Nat) (cfg : Option OutpostConfig) :
    (isOutpostRunning alive fs).1 = .running pid cfg ↔
      fs.pidFile = .valid pid ∧ alive pid = true ∧
        ((fs.configFile = .absent ∧ cfg = none) ∨
         (∃ c, fs.configFile = .valid c ∧ cfg = some c)) := by
  rcases fs with ⟨pf, cf⟩
  cases pf with
  | absent => simp [isOutpostRunning]
  | invalid => simp [isOutpostRunning]
  | valid p =>
    by_cases hl : alive p
    · cases cf with
      | absent =>
        simp only [isOutpostRunning, hl, if_true]
        constructor
        · intro h
          injection h with h1 h2
          subst h1; subst h2
          exact ⟨rfl, hl, .inl ⟨by simp, rfl⟩⟩
        · rintro ⟨hp, _, hc⟩
          injection hp with hp; subst hp
          rcases hc with ⟨_, hc⟩ | ⟨c, hc, _⟩
          · subst hc; rfl
          · cases hc
      | invalid =>
        simp only [isOutpostRunning, hl, if_true]
        constructor
        · rintro ⟨⟩
        · rintro ⟨hp, _, hc⟩
          rcases hc with ⟨hc, _⟩ | ⟨c, hc, _⟩ <;> cases hc
      | valid c0 =>
        simp only [isOutpostRunning, hl, if_true]
        constructor
        · intro h
          injection h with h1 h2
          subst h1; subst h2
          exact ⟨rfl, hl, .inr ⟨c0, by simp, rfl⟩⟩
        · rintro ⟨hp, _, hc⟩
          injection hp with hp; subst hp
          rcases hc with ⟨hc, _⟩ | ⟨c, hc, hcfg⟩
          · cases hc
          · injection hc with hc; subst hc; subst hcfg; rfl
    · simp only [isOutpostRunning, hl, if_false]
      constructor
      · rintro ⟨⟩
      · rintro ⟨hp, ha, _⟩
        injection hp with hp; subst hp
        exact absurd ha (by simp [hl])

/-! ## C4 — serve refuses to launch while running -/

/-- C4: when the probe reports running, `serve` exits with code 1, displays the
existing descriptor (pid and config), spawns nothing, saves nothing, and leaves
the descriptor files exactly as they were. -/
theorem serve_already_running (env : SpawnEnv) (opts : ServeOptions)
    (fs : OutpostFiles) (pid : Nat) (cfg : Option OutpostConfig)
    (h : (isOutpostRunning env.alive fs).1 = .running pid cfg) :
    serveAction env opts fs = (⟨1, false, false, some (pid, cfg)⟩, fs) := by
  have h2 := isOutpostRunning_running_snd env.alive fs pid cfg h
  unfold serveAction
  rcases he : isOutpostRunning env.alive fs with ⟨r, fs'⟩
  rw [he] at h h2
  simp at h h2
  subst h; subst h2
  rfl

/-- Witness for C4 at a concrete running state. -/
theorem serve_already_running_witness :
    serveAction
        ⟨fun p => p == 42, true, true, some 77, some 0, "t1"⟩
        ⟨3003, "https://git-gallery.com", false, true, false, 3002⟩
        ⟨.valid 42, .valid ⟨3003, "u", "t0"⟩⟩
      = (⟨1, false, false, some (42, some ⟨3003, "u", "t0"⟩)⟩,
         ⟨.valid 42, .valid ⟨3003, "u", "t0"⟩⟩) :=
  serve_already_running
    ⟨fun p => p == 42, true, true, some 77, some 0, "t1"⟩
    ⟨3003, "https://git-gallery.com", false, true, false, 3002⟩
    ⟨.valid 42, .valid ⟨3003, "u", "t0"⟩⟩ 42 (some ⟨3003, "u", "t0"⟩) (by decide)

/-! ## C5 — kill with nothing to do -/

/-- C5: invoking `kill` when neither descriptor file exists reports that no
server was running, exits 0, performs no OS events, and leaves the (empty)
file state untouched. -/
theorem kill_no_server_noop (env : KillEnv) :
    killAction env .empty = (⟨0, true, []⟩, .empty) := rfl

/-! ## C7 — kill escalation on a live descriptor -/

/-- C7: when the probe reports a live descriptor and the SIGTERM send succeeds,
`kill` sends SIGTERM to the recorded pid, waits the single fixed 1000 ms delay,
re-probes liveness, sends SIGKILL only if the process is still alive, and in
either outcome deletes both descriptor files and exits 0. -/
theorem kill_running_escalation (env : KillEnv) (fs : OutpostFiles) (pid : Nat)
    (cfg : Option OutpostConfig)
    (hrun : (isOutpostRunning env.alive fs).1 = .running pid cfg)
    (hterm : env.sigtermOk pid = true) :
    killAction env fs =
      (⟨0, false,
        [.sigterm pid, .waitMs 1000, .livenessProbe pid] ++
          (if env.aliveAfterWait pid then [.sigkill pid] else [])⟩,
       .empty) := by
  unfold killAction
  rcases he : isOutpostRunning env.alive fs with ⟨r, fs'⟩
  rw [he] at hrun
  simp at hrun
  subst hrun
  by_cases ha : env.aliveAfterWait pid <;>
    simp [hterm, ha, cleanupServerInfo]

/-- Witness for C7 at a concrete live state, where the process survives the
wait and is force-killed. -/
theorem kill_running_escalation_witness :
    killAction
        ⟨fun p => p == 42, fun _ => true, fun _ => true⟩
        ⟨.valid 42, .valid ⟨3003, "u", "t0"⟩⟩
      = (⟨0, false, [.sigterm 42, .waitMs 1000, .livenessProbe 42, .sigkill 42]⟩,
         .empty) :=
  kill_running_escalation
    ⟨fun p => p == 42, fun _ => true, fun _ => true⟩
    ⟨.valid 42, .valid ⟨3003, "u", "t0"⟩⟩ 42 (some ⟨3003, "u", "t0"⟩)
    (by decide) rfl

/-! ## C8 — foreground launch frame and exit code -/

/-- C8: a foreground (non-detached) launch never writes the descriptor — the
pid and config files come out exactly as they went in — and when the child
exits with a numeric code under a successful gateway start and a found
executable, the invocation's exit code is that code. -/
theorem launch_foreground_frame (env : SpawnEnv) (opts : ServeOptions)
    (fs : OutpostFiles) (hfg : opts.detached = false) :
    (launchOutpost env opts fs).2 = fs ∧
    ((launchOutpost env opts fs).1).savedDescriptor = false ∧
    (∀ c, env.childExitCode = some c →
      (opts.localApi = true → env.gatewayStartOk = true) →
      env.executableFound = true →
      ((launchOutpost env opts fs).1).exitCode = c) := by
  unfold launchOutpost
  refine ⟨?_, ?_, ?_⟩
  · split_ifs <;> simp_all
  · split_ifs <;> simp_all
  · intro c hc hl hx
    split_ifs <;> simp_all

/-- Witness for C8: a concrete foreground launch whose child exits with
code 7. -/
theorem launch_foreground_frame_witness :
    (launchOutpost ⟨fun _ => false, true, true, some 77, some 7, "t1"⟩
        ⟨3003, "https://git-gallery.com", false, true, false, 3002⟩ .empty).2
      = .empty ∧
    ((launchOutpost ⟨fun _ => false, true, true, some 77, some 7, "t1"⟩
        ⟨3003, "https://git-gallery.com", false, true, false, 3002⟩ .empty).1).savedDescriptor
      = false ∧
    ((launchOutpost ⟨fun _ => false, true, true, some 77, some 7, "t1"⟩
        ⟨3003, "https://git-gallery.com", false, true, false, 3002⟩ .empty).1).exitCode
      = 7 := by
  have h := launch_foreground_frame ⟨fun _ => false, true, true, some 77, some 7, "t1"⟩
    ⟨3003, "https://git-gallery.com", false, true, false, 3002⟩ .empty rfl
  exact ⟨h.1, h.2.1, h.2.2 7 rfl (fun _ => rfl) rfl⟩

/-! ## C1 — path containment for raw file streaming -/

/-- C1 counterexample: from root `/tmp/demo`, the relative path `../demo2/x`
escapes the repository root (its resolution `/tmp/demo2/x` is not contained in
`/tmp/demo`), yet the handler streams it with a 200 instead of answering 403,
because the containment check is a string prefix test on the joined path and
`"/tmp/demo2/x"` starts with the string `"/tmp/demo"`. -/
theorem raw_sibling_escape_not_rejected :
    escapesRoot "/tmp/demo" "../demo2/x" = true ∧
    streamRawFile (fun n => if n = "demo" then some ⟨some "/tmp/demo"⟩ else none)
        (fun _ => true) "demo" "../demo2/x"
      = .streamOk "/tmp/demo2/x" := by decide

/-- C1 amended: for a registered repository with a non-empty root, the handler
answers 403 FORBIDDEN exactly when the joined path does not start, as a string,
with the root. Traversal whose resolution loses the root as a string prefix is
always rejected, but an escape into a sibling directory whose absolute path
begins with the root string is not. -/
theorem raw_forbidden_characterization (lookup : String → Option RawRepo)
    (fileExists : String → Bool) (repo filePath root : String)
    (hrepo : lookup repo = some ⟨some root⟩) (hroot : root ≠ "") :
    streamRawFile lookup fileExists repo filePath = .forbidden ↔
      strStartsWith (pathJoin root filePath) root = false := by
  unfold streamRawFile
  rw [hrepo]
  simp only [jsFalsyStr, Option.getD_some]
  rw [if_neg (by simpa using hroot)]
  by_cases hs : strStartsWith (pathJoin root filePath) root
  · rw [if_neg (by simpa using hs)]
    by_cases hf : fileExists (pathJoin root filePath) <;>
      simp [hf, hs]
  · simp [hs]

/-- Witness for C1's amended theorem: `../../etc/passwd` from `/tmp/demo`
resolves to `/etc/passwd`, which loses the root prefix, so the handler answers
403. -/
theorem raw_forbidden_characterization_witness :
    streamRawFile (fun n => if n = "demo" then some ⟨some "/tmp/demo"⟩ else none)
        (fun _ => true) "demo" "../../etc/passwd" = .forbidden :=
  (raw_forbidden_characterization
      (fun n => if n = "demo" then some ⟨some "/tmp/demo"⟩ else none)
      (fun _ => true) "demo" "../../etc/passwd" "/tmp/demo"
      (by decide) (by decide)).mpr (by decide)

/-! ## C9 — gateway stop as a no-op -/

/-- C9 counterexample: starting the gateway and stopping it once resolves, but
a second stop request rejects — `stop()` keeps the `server` handle, and closing
an already closed server fails — contradicting "succeeds as a no-op whenever
the gateway ... has already been stopped". -/
theorem gateway_second_stop_rejects :
    (LocalAPIServer.stop (LocalAPIServer.start .notStarted)).1 = .resolved ∧
    (LocalAPIServer.stop
        (LocalAPIServer.stop (LocalAPIServer.start .notStarted)).2).1
      = .rejected "ERR_SERVER_NOT_RUNNING" := by decide

/-- C9 amended: a stop request is a no-op success when the gateway was never
started, and resolves exactly when the retained server handle is not already
closed; a second stop after a completed stop rejects. -/
theorem gateway_stop_resolves_iff_not_closed (g : GatewayState) :
    ((LocalAPIServer.stop g).1 = .resolved ↔ g ≠ .closed) ∧
    LocalAPIServer.stop .notStarted = (.resolved, .notStarted) := by
  cases g <;> exact ⟨by decide, by decide⟩

/-! ## C10 — empty registration fields behave as absent -/

/-- C10: a `POST /repos` body carrying an empty string for name or path gets
the same 400 INVALID_REQUEST response as one with the field absent, and the
registry is left unchanged. -/
theorem post_repos_empty_fields (reg : Registry) (nm pth : Option String) :
    (postRepos reg (some "") pth = postRepos reg none pth ∧
      postRepos reg none pth = (.invalidRequest, reg)) ∧
    (postRepos reg nm (some "") = postRepos reg nm none ∧
      postRepos reg nm none = (.invalidRequest, reg)) := by
  refine ⟨⟨?_, ?_⟩, ⟨?_, ?_⟩⟩ <;> simp [postRepos, jsFalsyStr]

/-! ## C3 — duplicate registration is a distinct 409 conflict -/

/-- A pattern that is an infix of a character list is found by `listIsInfixOf`. -/
theorem listIsInfixOf_of_infix (pat l : List Char) (h : pat <:+: l) :
    listIsInfixOf pat l = true := by
  induction l with
  | nil =>
    rw [ List.infix_nil] at h
    subst h; rfl
  | cons c cs ih =>
    rw [ List.infix_cons_iff] at h
    rcases h with h | h
    · unfold listIsInfixOf
      rw [ List.isPrefixOf_iff_prefix.mpr h]
      simp
    · unfold listIsInfixOf
      rw [ih h]
      simp

/-- A string includes its own final segment. -/
theorem includesSub_append_self (a b : String) : includesSub (a ++ b) b = true := by
  apply listIsInfixOf_of_infix
  have hab : (a ++ b).toList = a.toList ++ b.toList := by
    simp [String.toList, String.data_append]
  rw [hab]
  exact ⟨a.toList, [], by simp⟩

/-- Looking a fresh name up after appending its entry finds that entry. -/
theorem getProject_append_fresh (reg : Registry) (n p : String)
    (hn : reg.any (fun e => e.name = n) = false) :
    getProject (reg ++ [⟨n, p⟩]) n = some ⟨n, p⟩ := by
  unfold getProject
  rw [List.find?_append]
  have h1 : reg.find? (fun e => e.name = n) = none := by
    rw [List.find?_eq_none]
    intro x hx
    have := List.any_eq_false.mp hn x hx
    simpa using this
  rw [h1]
  simp

/-- C3: with a name not yet registered and non-empty fields, the first
`POST /repos` succeeds and appends the entry, and a second request with the
same name answers with the distinct 409 ALREADY_EXISTS condition — not the
generic REGISTRATION_FAILED — leaving the registry exactly as the first call
left it. -/
theorem register_twice_conflict (reg : Registry) (n p p2 : String)
    (hn : reg.any (fun e => e.name = n) = false)
    (hne : n ≠ "") (hpe : p ≠ "") (hp2 : p2 ≠ "") :
    postRepos reg (some n) (some p) = (.ok n, reg ++ [⟨n, p⟩]) ∧
    (postRepos (reg ++ [⟨n, p⟩]) (some n) (some p2)).2 = reg ++ [⟨n, p⟩] ∧
    ∃ m, (postRepos (reg ++ [⟨n, p⟩]) (some n) (some p2)).1 = .alreadyExists m := by
  have hreg1 : registerRepository reg n p = .ok (n, reg ++ [⟨n, p⟩]) := by
    unfold registerRepository registerProject
    rw [if_neg (by simp [hn])]
    simp [getProject_append_fresh reg n p hn]
  have hreg2 : registerRepository (reg ++ [⟨n, p⟩]) n p2
      = .error ("Repository " ++ n ++ " already exists") := by
    unfold registerRepository registerProject
    rw [if_pos (by simp)]
  have hmsg : includesSub ("Repository " ++ n ++ " already exists") "already exists" = true := by
    have hsp : ("Repository " ++ n ++ " already exists" : String)
        = (("Repository " ++ n) ++ " ") ++ "already exists" := by
      rw [String.append_assoc ("Repository " ++ n) " " "already exists"]
      have : (" " ++ "already exists" : String) = " already exists" := by decide
      rw [this]
    rw [hsp]
    exact includesSub_append_self _ _
  refine ⟨?_, ?_, ?_⟩
  · unfold postRepos
    rw [if_neg (by simp [jsFalsyStr, hne, hpe])]
    simp only [Option.getD_some]
    rw [hreg1]
  · unfold postRepos
    rw [if_neg (by simp [jsFalsyStr, hne, hp2])]
    simp only [Option.getD_some]
    rw [hreg2]
    simp [hmsg]
  · refine ⟨"Repository " ++ n ++ " already exists", ?_⟩
    unfold postRepos
    rw [if_neg (by simp [jsFalsyStr, hne, hp2])]
    simp only [Option.getD_some]
    rw [hreg2]
    simp [hmsg]

/-- Witness for C3: registering "demo" into an empty registry succeeds, and a
second registration of "demo" leaves the one-entry registry unchanged. -/
theorem register_twice_conflict_witness :
    postRepos [] (some "demo") (some "/tmp/demo")
      = (.ok "demo", [⟨"demo", "/tmp/demo"⟩]) ∧
    (postRepos [⟨"demo", "/tmp/demo"⟩] (some "demo") (some "/tmp/other")).2
      = [⟨"demo", "/tmp/demo"⟩] :=
  ⟨(register_twice_conflict [] "demo" "/tmp/demo" "/tmp/other" rfl
      (by decide) (by decide) (by decide)).1,
   (register_twice_conflict [] "demo" "/tmp/demo" "/tmp/other" rfl
      (by decide) (by decide) (by decide)).2.1⟩

end AlexandriaCLI
